import Mathlib

/-!
Shallow embedding of `TrunkFatApp/app.py` (a Flask prediction service).

Real numbers of the Python program are modelled as `ℚ`; the opaque XGBoost
predictor is a parameter `List ℚ → Except String ℚ` (a throwing call returns
`.error`); JSON field values that the handler inspects are modelled by `JVal`.
-/

namespace TrunkFatApp

/-- A JSON value as far as the handler inspects it: a number, a string, or
`null` (standing for any value that is neither a number nor a string). -/
inductive JVal where
  | num (q : ℚ)
  | str (s : String)
  | null
deriving DecidableEq

/-- The two Python exception classes that `float(v)` can raise:
`ValueError` (unparseable string) or `TypeError` (not a string or number). -/
inductive PyErr where
  | valueError
  | typeError
deriving DecidableEq

/-- Digits of a decimal numeral to a natural number; `none` on a non-digit
or on the empty list. -/
def parseNatDigits : List Char → Option ℕ
  | [] => none
  | cs => cs.foldlM (fun n c => if c.isDigit then some (10 * n + (c.toNat - 48)) else none) 0

/-- Models Python `float(s)` on plain decimal literals (optional sign,
digits, optional decimal point): `none` when `float` would raise
`ValueError`.  Exotic forms (exponents, `inf`, `nan`) are out of scope of
the claims and parse to `none` here. -/
def parseDecimal (s : String) : Option ℚ :=
  let cs := s.data
  let sign : ℚ × List Char :=
    match cs with
    | '-' :: rest => (-1, rest)
    | '+' :: rest => (1, rest)
    | _ => (1, cs)
  let intPart := sign.2.takeWhile (fun c => c ≠ '.')
  match sign.2.dropWhile (fun c => c ≠ '.') with
  | [] => (parseNatDigits intPart).map (fun n => sign.1 * n)
  | _ :: frac =>
    if frac.any (fun c => c = '.') then none
    else if intPart = [] ∧ frac = [] then none
    else
      match (if intPart = [] then some 0 else parseNatDigits intPart),
            (if frac = [] then some 0 else parseNatDigits frac) with
      | some i, some f => some (sign.1 * ((i : ℚ) + (f : ℚ) / (10 ^ frac.length)))
      | _, _ => none

/-- Models Python `float(v)` on a JSON value: a number converts to itself, a
string is parsed (raising `ValueError` on failure), anything else raises
`TypeError`. -/
def pyFloat : JVal → Except PyErr ℚ
  | .num q => .ok q
  | .str s =>
    match parseDecimal s with
    | some q => .ok q
    | none => .error .valueError
  | .null => .error .typeError

/-- Round to the nearest integer, ties to even (the rounding used by
Python `round`). -/
def roundHalfEven (y : ℚ) : ℤ :=
  let f := ⌊y⌋
  if y - f < 1 / 2 then f
  else if 1 / 2 < y - f then f + 1
  else if f % 2 = 0 then f else f + 1

/-- Models Python `round(x, 1)`. -/
def pyRound1 (x : ℚ) : ℚ := (roundHalfEven (10 * x) : ℚ) / 10

/-- Models the Python format `f"{q:.1f}"`. -/
def fmt1 (q : ℚ) : String :=
  let n := roundHalfEven (10 * q)
  (if n < 0 then "-" else "") ++ toString (n.natAbs / 10) ++ "." ++ toString (n.natAbs % 10)

/-- The four recommendation items appended when `percentage >= 28.6`. -/
def recHigh : List String :=
  ["增加有氧运动频率，每周至少150分钟中等强度运动",
   "减少精制碳水化合物和饱和脂肪的摄入",
   "增加膳食纤维和优质蛋白质比例",
   "考虑定期监测空腹血糖和血脂"]

/-- The two recommendation items appended when `percentage >= 35`. -/
def recVeryHigh : List String :=
  ["强烈建议进行医学营养治疗咨询",
   "考虑进行口服葡萄糖耐量试验"]

/-- The two recommendation items appended when `percentage < 25`. -/
def recLow : List String :=
  ["继续保持当前的健康生活习惯",
   "定期进行身体成分监测"]

/-- `_get_recommendation` from `app.py`: three independent `if`s append to
an initially empty list. -/
def _get_recommendation (percentage : ℚ) : List String :=
  (if percentage ≥ 28.6 then recHigh else []) ++
  (if percentage ≥ 35 then recVeryHigh else []) ++
  (if percentage < 25 then recLow else [])

/-- The interpretation structure returned by `get_interpretation`. -/
structure Interp where
  risk_level : String
  advice : String
  detailed_advice : String
  cutoff_note : String
  recommendation : List String
deriving DecidableEq

/-- `get_interpretation` from `app.py`. -/
def get_interpretation (percentage : ℚ) : Interp :=
  { risk_level := if percentage < 28.6 then "较低" else "较高"
    advice :=
      if percentage < 28.6 then "您的躯干脂肪比例在健康范围内。继续保持均衡饮食和规律运动。"
      else "您的躯干脂肪比例提示代谢性疾病风险增高。建议咨询医生，调整饮食结构并增加有氧运动。"
    detailed_advice :=
      if percentage < 20 then "优秀！您的身体成分非常健康。"
      else if percentage < 25 then "良好！继续保持当前的生活方式。"
      else if percentage < 28.6 then "注意！接近风险临界值，建议定期监测。"
      else if percentage < 35 then "关注！建议进行详细的身体成分分析，并制定改善计划。"
      else "重要提示！强烈建议寻求专业医疗指导。"
    cutoff_note :=
      "根据临床研究，躯干脂肪比例 ≥ 28.6% 被视为代谢性疾病的风险临界值。您的结果是 " ++
        fmt1 percentage ++ "%。"
    recommendation := _get_recommendation percentage }

/-- Models Python `s.lower()`: lower-case every character.  (Equivalent to
`String.toLower`, but written as a plain list map so that it reduces.) -/
def pyLower (s : String) : String := ⟨s.data.map Char.toLower⟩

/-- The fixed feature order `FEATURE_ORDER` from `app.py`. -/
def FEATURE_ORDER : List String := ["Female", "Waist", "Height", "Weight", "Age"]

/-- The opaque predictor: `model.predict` on one feature vector, which may
throw (the `.error` carries `str(e)`). -/
def Predictor : Type := List ℚ → Except String ℚ

/-- The JSON dictionary of a `/predict` request, restricted to the five
fields the handler reads; a `none` field is absent from the dictionary. -/
structure ReqData where
  gender : Option JVal
  waist : Option JVal
  height : Option JVal
  weight : Option JVal
  age : Option JVal

/-- An HTTP response of the handler: a 200 success body
`{success, trunk_fat_percentage, interpretation}` or an error body
`{error: msg}` with its status code. -/
inductive Resp where
  | ok (trunk_fat_percentage : ℚ) (interpretation : Interp)
  | err (msg : String) (code : ℕ)
deriving DecidableEq

/-- Result of one handler run, with a trace of how many times the handler
called `load_model` and how many times it called `model.predict`. -/
structure HResult where
  resp : Resp
  loaderCalls : ℕ
  predictCalls : ℕ

/-- The four `float(...)` conversions of `app.py` lines 183-186, performed in
source order inside one `try`; the first raising conversion wins. -/
def conv4 (w h wt a : JVal) : Except PyErr (ℚ × ℚ × ℚ × ℚ) :=
  match pyFloat w with
  | .error e => .error e
  | .ok w' =>
    match pyFloat h with
    | .error e => .error e
    | .ok h' =>
      match pyFloat wt with
      | .error e => .error e
      | .ok wt' =>
        match pyFloat a with
        | .error e => .error e
        | .ok a' => .ok (w', h', wt', a')

/-- Clamp followed by `round(_, 1)`: `app.py` lines 233-234. -/
def postprocess (prediction : ℚ) : ℚ := pyRound1 (max 5.0 (min 50.0 prediction))

/-- `required_fields` from `app.py` line 176, in the order the presence
loop checks them. -/
def required_fields : List String := ["gender", "waist", "height", "weight", "age"]

/-- Python `pat in s` on strings: the substring test, written on the
character lists. -/
def strMem (pat : List Char) : List Char → Bool
  | [] => decide (pat = [])
  | c :: rest => decide (pat = (c :: rest).take pat.length) || strMem pat rest

/-- The parsed request body (the value `request.get_json()` produced), as
far as the handler distinguishes it.  Python's `field in data` behaves
differently per kind: on a dict (`obj`) it is key lookup; on a list
(`arr`) it is element membership and does not raise; on a string
(`strBody`) it is the substring test and does not raise; on any other
body — JSON `null`, a number, a boolean, or the `None` that `get_json`
yields for a non-JSON content type — it raises `TypeError`, which the
catch-all turns into HTTP 500 (`othr`). -/
inductive Body where
  | obj (d : ReqData)
  | arr (elems : List JVal)
  | strBody (s : String)
  | othr

/-- The `/predict` handler of `app.py` (function `predict`).

`data?` is the outcome of `request.get_json()`: `some b` when a body was
produced, `none` when `get_json` itself raised on a malformed JSON body
(`BadRequest`, swallowed by the catch-all).  For an `arr` or `strBody`
body the presence loop runs without raising: the first required field name
that is not a member (element of the list, or substring of the string)
gives the 400 missing-field response; when all five names are members, the
first subscript `data['waist']` raises `TypeError` and the catch-all gives
500.  `model` is the current global predictor; `loadModel` is the
predictor that a call to `load_model()` would return.  Exceptions whose
text is produced by the Python runtime rather than the program
(`TypeError`, `AttributeError`, `BadRequest`) are rendered by their class
name inside the catch-all message. -/
def handlePredict (data? : Option Body) (model : Option Predictor)
    (loadModel : Option Predictor) : HResult :=
  match data? with
  | none => ⟨.err "预测失败: BadRequest" 500, 0, 0⟩
  | some .othr => ⟨.err "预测失败: TypeError" 500, 0, 0⟩
  | some (.arr es) =>
    match required_fields.find? (fun f => !es.contains (.str f)) with
    | some f => ⟨.err ("缺少必要字段: " ++ f) 400, 0, 0⟩
    | none => ⟨.err "预测失败: TypeError" 500, 0, 0⟩
  | some (.strBody s) =>
    match required_fields.find? (fun f => !strMem f.data s.data) with
    | some f => ⟨.err ("缺少必要字段: " ++ f) 400, 0, 0⟩
    | none => ⟨.err "预测失败: TypeError" 500, 0, 0⟩
  | some (.obj d) =>
    match d.gender with
    | none => ⟨.err "缺少必要字段: gender" 400, 0, 0⟩
    | some g =>
      match d.waist with
      | none => ⟨.err "缺少必要字段: waist" 400, 0, 0⟩
      | some wv =>
        match d.height with
        | none => ⟨.err "缺少必要字段: height" 400, 0, 0⟩
        | some hv =>
          match d.weight with
          | none => ⟨.err "缺少必要字段: weight" 400, 0, 0⟩
          | some wtv =>
            match d.age with
            | none => ⟨.err "缺少必要字段: age" 400, 0, 0⟩
            | some av =>
              match conv4 wv hv wtv av with
              | .error .valueError => ⟨.err "请输入有效的数值" 400, 0, 0⟩
              | .error .typeError => ⟨.err "预测失败: TypeError" 500, 0, 0⟩
              | .ok (waist, height, weight, age) =>
                if ¬(50 ≤ waist ∧ waist ≤ 200) then ⟨.err "腰围应在50-200cm之间" 400, 0, 0⟩
                else if ¬(100 ≤ height ∧ height ≤ 250) then ⟨.err "身高应在100-250cm之间" 400, 0, 0⟩
                else if ¬(30 ≤ weight ∧ weight ≤ 200) then ⟨.err "体重应在30-200kg之间" 400, 0, 0⟩
                else if ¬(18 ≤ age ∧ age ≤ 100) then ⟨.err "年龄应在18-100岁之间" 400, 0, 0⟩
                else
                  match g with
                  | .str gs =>
                    match model with
                    | none => ⟨.err "模型未加载，请检查服务器配置" 500, 0, 0⟩
                    | some p =>
                      match p [if pyLower gs = "female" then 1 else 0, waist, height, weight, age] with
                      | .ok prediction =>
                        ⟨.ok (postprocess prediction) (get_interpretation (postprocess prediction)), 0, 1⟩
                      | .error _ =>
                        match loadModel with
                        | none => ⟨.err "模型修复失败" 500, 1, 1⟩
                        | some p2 =>
                          match p2 [if pyLower gs = "female" then 1 else 0, waist, height, weight, age] with
                          | .ok prediction =>
                            ⟨.ok (postprocess prediction) (get_interpretation (postprocess prediction)), 1, 2⟩
                          | .error e2 => ⟨.err ("预测失败: " ++ e2) 500, 1, 2⟩
                  | _ => ⟨.err "预测失败: AttributeError" 500, 0, 0⟩

/-- Outcome of `deep_fix_xgboost_model`: which predictor was returned and
whether the temporary file still exists on return. -/
structure DeepFixOutcome where
  returnedNewModel : Bool
  tmpLeft : Bool
deriving DecidableEq

/-- `deep_fix_xgboost_model` from `app.py`, abstracted over the opaque
xgboost operations.  `isXGBRegressor` and `hasBooster` reflect the two
guards; `saveOk`, `fitOk`, `loadOk` say whether `save_model`, `fit` and
`load_model` succeed or throw.  The temporary file is created (with
`delete=False`) before `save_model` runs, and `os.unlink` is reached only
after a successful `load_model`; the inner `except` clause returns without
deleting it. -/
def deep_fix_xgboost_model (isXGBRegressor hasBooster saveOk fitOk loadOk : Bool) :
    DeepFixOutcome :=
  if isXGBRegressor then
    if hasBooster then
      if saveOk then
        if fitOk then
          if loadOk then ⟨true, false⟩
          else ⟨false, true⟩
        else ⟨false, true⟩
      else ⟨false, true⟩
    else ⟨false, false⟩
  else ⟨false, false⟩

/-! ## Rounding lemmas -/

/-- `roundHalfEven` is within one half of its argument. -/
theorem roundHalfEven_abs (y : ℚ) : |(roundHalfEven y : ℚ) - y| ≤ 1 / 2 := by
  have h0 : (⌊y⌋ : ℚ) ≤ y := Int.floor_le y
  have h1 : y < ⌊y⌋ + 1 := Int.lt_floor_add_one y
  simp only [roundHalfEven]
  split_ifs with ha hb hc
  · rw [abs_le]; constructor <;> linarith
  · rw [abs_le]; push_cast; constructor <;> linarith
  · have heq : y - ⌊y⌋ = 1 / 2 := le_antisymm (not_lt.mp hb) (not_lt.mp ha)
    rw [abs_le]; constructor <;> linarith
  · have heq : y - ⌊y⌋ = 1 / 2 := le_antisymm (not_lt.mp hb) (not_lt.mp ha)
    rw [abs_le]; push_cast; constructor <;> linarith

/-- Rounding to one decimal keeps a value of `[5, 50]` inside `[5, 50]`. -/
theorem pyRound1_bounds (c : ℚ) (h5 : 5 ≤ c) (h50 : c ≤ 50) :
    5 ≤ pyRound1 c ∧ pyRound1 c ≤ 50 := by
  have habs := roundHalfEven_abs (10 * c)
  rw [abs_le] at habs
  set n := roundHalfEven (10 * c) with hn
  have hlo : (49 : ℚ) < (n : ℚ) := by linarith
  have hhi : (n : ℚ) < 501 := by linarith
  have hlo' : (49 : ℤ) < n := by exact_mod_cast hlo
  have hhi' : n < (501 : ℤ) := by exact_mod_cast hhi
  have hlo'' : (50 : ℚ) ≤ (n : ℚ) := by exact_mod_cast hlo'
  have hhi'' : (n : ℚ) ≤ 500 := by
    have : n ≤ (500 : ℤ) := by omega
    exact_mod_cast this
  unfold pyRound1
  rw [← hn]
  exact ⟨by linarith, by linarith⟩

/-- The clamped-and-rounded result lies in `[5, 50]` and is an integer
multiple of `1/10`. -/
theorem postprocess_mem (x : ℚ) :
    5 ≤ postprocess x ∧ postprocess x ≤ 50 ∧ ∃ k : ℤ, postprocess x = (k : ℚ) / 10 := by
  have h5 : (5 : ℚ) ≤ max 5.0 (min 50.0 x) := by
    have := le_max_left (5.0 : ℚ) (min 50.0 x)
    norm_num at this ⊢
  have h50 : max 5.0 (min 50.0 x) ≤ 50 := by
    apply max_le
    · norm_num
    · calc min 50.0 x ≤ 50.0 := min_le_left _ _
        _ ≤ 50 := by norm_num
  obtain ⟨hb1, hb2⟩ := pyRound1_bounds _ h5 h50
  exact ⟨hb1, hb2, roundHalfEven (10 * max 5.0 (min 50.0 x)), rfl⟩

/-! ## Theorems -/

/-- C1: the recommendation list accumulates additively and non-exclusively
over `percentage`: for `28.6 ≤ p < 35` it is exactly the four high items;
for `p ≥ 35` it is the four high items followed by the two very-high items,
six in all; for `p < 25` it is exactly the two low items; and at `p = 30`
it is exactly the four high items and contains no low item. -/
theorem C1_recommendation_accumulation :
    (∀ p : ℚ, 28.6 ≤ p → p < 35 → _get_recommendation p = recHigh) ∧
    (∀ p : ℚ, 35 ≤ p →
      _get_recommendation p = recHigh ++ recVeryHigh ∧ (_get_recommendation p).length = 6) ∧
    (∀ p : ℚ, p < 25 → _get_recommendation p = recLow) ∧
    _get_recommendation 30 = recHigh ∧
    ∀ s ∈ recLow, s ∉ _get_recommendation 30 := by
  have h30 : _get_recommendation 30 = recHigh := by
    unfold _get_recommendation
    rw [if_pos (by norm_num), if_neg (by norm_num), if_neg (by norm_num)]
    simp
  refine ⟨?_, ?_, ?_, h30, ?_⟩
  · intro p h1 h2
    unfold _get_recommendation
    rw [if_pos (ge_iff_le.mpr h1), if_neg (by simpa using not_le.mpr h2),
      if_neg (not_lt.mpr (le_trans (by norm_num) h1))]
    simp
  · intro p h1
    unfold _get_recommendation
    rw [if_pos (ge_iff_le.mpr (le_trans (by norm_num) h1)), if_pos (ge_iff_le.mpr h1),
      if_neg (not_lt.mpr (le_trans (by norm_num) h1))]
    constructor
    · simp
    · simp [recHigh, recVeryHigh]
  · intro p h1
    unfold _get_recommendation
    rw [if_neg (by simpa using not_le.mpr (lt_of_lt_of_le h1 (by norm_num))),
      if_neg (by simpa using not_le.mpr (lt_of_lt_of_le h1 (by norm_num))), if_pos h1]
    simp
  · intro s hs
    rw [h30]
    revert hs
    simp [recLow, recHigh]
    rintro (rfl | rfl) <;> simp

/-- Witness for C1 at concrete percentages 30, 36 and 20. -/
theorem C1_witness :
    _get_recommendation 30 = recHigh ∧
    _get_recommendation 36 = recHigh ++ recVeryHigh ∧
    _get_recommendation 20 = recLow :=
  ⟨C1_recommendation_accumulation.2.2.2.1,
   (C1_recommendation_accumulation.2.1 36 (by norm_num)).1,
   C1_recommendation_accumulation.2.2.1 20 (by norm_num)⟩

/-- C10: in the band `25 ≤ p < 28.6` none of the three accumulation
conditions holds, so the recommendation list is empty. -/
theorem C10_recommendation_empty_band :
    ∀ p : ℚ, 25 ≤ p → p < 28.6 → _get_recommendation p = [] := by
  intro p h1 h2
  unfold _get_recommendation
  rw [if_neg (by simpa using not_le.mpr h2),
    if_neg (by simpa using not_le.mpr (lt_of_lt_of_le h2 (by norm_num))),
    if_neg (not_lt.mpr h1)]
  simp

/-- Witness for C10 at percentage 26. -/
theorem C10_witness : _get_recommendation 26 = [] :=
  C10_recommendation_empty_band 26 (by norm_num) (by norm_num)

/-- C5: `risk_level` is the higher-risk value `"较高"` exactly when
`p ≥ 28.6` (and the lower-risk value `"较低"` otherwise), each with its
fixed advice text, and `detailed_advice` is one of five fixed messages
selected by the bands `p < 20`, `20 ≤ p < 25`, `25 ≤ p < 28.6`,
`28.6 ≤ p < 35`, `35 ≤ p`. -/
theorem C5_interpretation_bands :
    ∀ p : ℚ,
      ((get_interpretation p).risk_level = "较高" ↔ 28.6 ≤ p) ∧
      ((get_interpretation p).risk_level = "较低" ↔ p < 28.6) ∧
      ((get_interpretation p).advice =
        "您的躯干脂肪比例提示代谢性疾病风险增高。建议咨询医生，调整饮食结构并增加有氧运动。" ↔ 28.6 ≤ p) ∧
      (p < 20 → (get_interpretation p).detailed_advice = "优秀！您的身体成分非常健康。") ∧
      (20 ≤ p → p < 25 → (get_interpretation p).detailed_advice = "良好！继续保持当前的生活方式。") ∧
      (25 ≤ p → p < 28.6 → (get_interpretation p).detailed_advice = "注意！接近风险临界值，建议定期监测。") ∧
      (28.6 ≤ p → p < 35 →
        (get_interpretation p).detailed_advice = "关注！建议进行详细的身体成分分析，并制定改善计划。") ∧
      (35 ≤ p → (get_interpretation p).detailed_advice = "重要提示！强烈建议寻求专业医疗指导。") := by
  intro p
  unfold get_interpretation
  rcases lt_or_le p 28.6 with hc | hc
  · rw [if_pos hc, if_pos hc]
    refine ⟨by simp [not_le.mpr hc], by simp [hc], by simp [not_le.mpr hc], ?_, ?_, ?_, ?_, ?_⟩
    · intro h1; rw [if_pos h1]
    · intro h1 h2; rw [if_neg (not_lt.mpr (by linarith)), if_pos h2]
    · intro h1 h2
      rw [if_neg (not_lt.mpr (by linarith)), if_neg (not_lt.mpr h1), if_pos h2]
    · intro h1 _; exact absurd h1 (not_le.mpr hc)
    · intro h1; exact absurd h1 (not_le.mpr (lt_of_lt_of_le hc (by norm_num)))
  · rw [if_neg (not_lt.mpr hc), if_neg (not_lt.mpr hc)]
    refine ⟨by simp [hc], by simp [not_lt.mpr hc], by simp [hc], ?_, ?_, ?_, ?_, ?_⟩
    · intro h1; exact absurd h1 (not_lt.mpr (by linarith))
    · intro _ h2; exact absurd h2 (not_lt.mpr (by linarith))
    · intro _ h2; exact absurd h2 (not_lt.mpr hc)
    · intro _ h2
      rw [if_neg (not_lt.mpr (by linarith)), if_neg (not_lt.mpr (by linarith)),
        if_neg (not_lt.mpr hc), if_pos h2]
    · intro h1
      rw [if_neg (not_lt.mpr (by linarith)), if_neg (not_lt.mpr (by linarith)),
        if_neg (not_lt.mpr hc), if_neg (not_lt.mpr h1)]

/-- Witness for C5 at percentage 30: higher risk and the fourth band. -/
theorem C5_witness :
    (get_interpretation 30).risk_level = "较高" ∧
    (get_interpretation 30).detailed_advice = "关注！建议进行详细的身体成分分析，并制定改善计划。" :=
  ⟨(C5_interpretation_bands 30).1.mpr (by norm_num),
   (C5_interpretation_bands 30).2.2.2.2.2.2.1 (by norm_num) (by norm_num)⟩

/-- C7 counterexample: on the Deep Repair path where the original state is
saved to the temporary file and `fit` then throws, the procedure returns
with the temporary file still present, contradicting the claim that every
such exit path deletes it. -/
theorem C7_counterexample :
    (deep_fix_xgboost_model true true true false true).tmpLeft = true ∧
    (deep_fix_xgboost_model true true true false true).returnedNewModel = false := by
  constructor <;> rfl

/-- C7 amended: the temporary file is removed only on the fully successful
transplant path; on every path that created the file and then failed
(`save_model`, `fit` or `load_model` throwing), the file is left behind. -/
theorem C7_tmpfile_cleanup :
    ∀ i b s f l : Bool,
      (deep_fix_xgboost_model i b s f l).tmpLeft = (i && b && !(s && f && l)) := by
  decide

/-- C2: for every request passing validation whose predictor call (first
call, or the retried call after a reload) returns `x`, the returned
`trunk_fat_percentage` is `x` clamped to `[5, 50]` then rounded to one
decimal (`postprocess`); and for every `x` that value lies in `[5, 50]`
and is an integer multiple of `1/10`. -/
theorem C2_clamp_round :
    (∀ (gs : String) (w h wt a x : ℚ) (p : Predictor) (l : Option Predictor),
      50 ≤ w → w ≤ 200 → 100 ≤ h → h ≤ 250 → 30 ≤ wt → wt ≤ 200 → 18 ≤ a → a ≤ 100 →
      p [if pyLower gs = "female" then 1 else 0, w, h, wt, a] = Except.ok x →
      handlePredict
          (some (.obj ⟨some (.str gs), some (.num w), some (.num h), some (.num wt), some (.num a)⟩))
          (some p) l =
        ⟨.ok (postprocess x) (get_interpretation (postprocess x)), 0, 1⟩) ∧
    (∀ (gs : String) (w h wt a x : ℚ) (e : String) (p p2 : Predictor),
      50 ≤ w → w ≤ 200 → 100 ≤ h → h ≤ 250 → 30 ≤ wt → wt ≤ 200 → 18 ≤ a → a ≤ 100 →
      p [if pyLower gs = "female" then 1 else 0, w, h, wt, a] = Except.error e →
      p2 [if pyLower gs = "female" then 1 else 0, w, h, wt, a] = Except.ok x →
      handlePredict
          (some (.obj ⟨some (.str gs), some (.num w), some (.num h), some (.num wt), some (.num a)⟩))
          (some p) (some p2) =
        ⟨.ok (postprocess x) (get_interpretation (postprocess x)), 1, 2⟩) ∧
    (∀ x : ℚ, 5 ≤ postprocess x ∧ postprocess x ≤ 50 ∧ ∃ k : ℤ, postprocess x = (k : ℚ) / 10) := by
  refine ⟨?_, ?_, postprocess_mem⟩
  · intro gs w h wt a x p l h1 h2 h3 h4 h5 h6 h7 h8 hp
    simp [handlePredict, conv4, pyFloat, h1, h2, h3, h4, h5, h6, h7, h8, hp]
  · intro gs w h wt a x e p p2 h1 h2 h3 h4 h5 h6 h7 h8 hp hp2
    simp [handlePredict, conv4, pyFloat, h1, h2, h3, h4, h5, h6, h7, h8, hp, hp2]

/-- Witness for C2: the concrete request
`{gender:"male", waist:85, height:175, weight:72, age:45}` with a predictor
returning `23.46` yields `trunk_fat_percentage = 23.5`. -/
theorem C2_witness :
    handlePredict
        (some (.obj ⟨some (.str "male"), some (.num 85), some (.num 175), some (.num 72), some (.num 45)⟩))
        (some (fun _ => Except.ok (1173 / 50))) none =
      ⟨.ok (postprocess (1173 / 50)) (get_interpretation (postprocess (1173 / 50))), 0, 1⟩ ∧
    postprocess (1173 / 50) = 47 / 2 := by
  constructor
  · exact C2_clamp_round.1 "male" 85 175 72 45 (1173 / 50) _ none
      (by norm_num) (by norm_num) (by norm_num) (by norm_num)
      (by norm_num) (by norm_num) (by norm_num) (by norm_num) rfl
  · norm_num [postprocess, pyRound1, roundHalfEven]

/-- C6: gender maps to feature value 1 exactly for the case-insensitive
string "female" ("Female" and "female" both map to 1, any other string to
0), and the feature vector handed to the predictor is
`[Female, Waist, Height, Weight, Age]` in that fixed order; the example
request maps to the vector `[0, 85, 175, 72, 45]`. -/
theorem C6_gender_feature_vector :
    (∀ (w h wt a x : ℚ) (p : Predictor) (l : Option Predictor),
      50 ≤ w → w ≤ 200 → 100 ≤ h → h ≤ 250 → 30 ≤ wt → wt ≤ 200 → 18 ≤ a → a ≤ 100 →
      p [1, w, h, wt, a] = Except.ok x →
      handlePredict
          (some (.obj ⟨some (.str "Female"), some (.num w), some (.num h), some (.num wt), some (.num a)⟩))
          (some p) l =
        ⟨.ok (postprocess x) (get_interpretation (postprocess x)), 0, 1⟩) ∧
    (∀ (w h wt a x : ℚ) (p : Predictor) (l : Option Predictor),
      50 ≤ w → w ≤ 200 → 100 ≤ h → h ≤ 250 → 30 ≤ wt → wt ≤ 200 → 18 ≤ a → a ≤ 100 →
      p [1, w, h, wt, a] = Except.ok x →
      handlePredict
          (some (.obj ⟨some (.str "female"), some (.num w), some (.num h), some (.num wt), some (.num a)⟩))
          (some p) l =
        ⟨.ok (postprocess x) (get_interpretation (postprocess x)), 0, 1⟩) ∧
    (∀ (gs : String) (w h wt a x : ℚ) (p : Predictor) (l : Option Predictor),
      pyLower gs ≠ "female" →
      50 ≤ w → w ≤ 200 → 100 ≤ h → h ≤ 250 → 30 ≤ wt → wt ≤ 200 → 18 ≤ a → a ≤ 100 →
      p [0, w, h, wt, a] = Except.ok x →
      handlePredict
          (some (.obj ⟨some (.str gs), some (.num w), some (.num h), some (.num wt), some (.num a)⟩))
          (some p) l =
        ⟨.ok (postprocess x) (get_interpretation (postprocess x)), 0, 1⟩) ∧
    (∀ (x : ℚ) (p : Predictor) (l : Option Predictor),
      p [0, 85, 175, 72, 45] = Except.ok x →
      handlePredict
          (some (.obj ⟨some (.str "male"), some (.num 85), some (.num 175), some (.num 72), some (.num 45)⟩))
          (some p) l =
        ⟨.ok (postprocess x) (get_interpretation (postprocess x)), 0, 1⟩) := by
  have hF : pyLower "Female" = "female" := by decide
  have hf : pyLower "female" = "female" := by decide
  have hm : pyLower "male" ≠ "female" := by decide
  refine ⟨?_, ?_, ?_, ?_⟩
  · intro w h wt a x p l h1 h2 h3 h4 h5 h6 h7 h8 hp
    simp [handlePredict, conv4, pyFloat, h1, h2, h3, h4, h5, h6, h7, h8, hF, hp]
  · intro w h wt a x p l h1 h2 h3 h4 h5 h6 h7 h8 hp
    simp [handlePredict, conv4, pyFloat, h1, h2, h3, h4, h5, h6, h7, h8, hf, hp]
  · intro gs w h wt a x p l hgs h1 h2 h3 h4 h5 h6 h7 h8 hp
    simp [handlePredict, conv4, pyFloat, h1, h2, h3, h4, h5, h6, h7, h8, hgs, hp]
  · intro x p l hp
    norm_num [handlePredict, conv4, pyFloat, hm, hp]

/-- Witness for C6: with gender "Female" the predictor is called on
`[1, 85, 175, 72, 45]`, and with gender "male" on `[0, 85, 175, 72, 45]`. -/
theorem C6_witness :
    handlePredict
        (some (.obj ⟨some (.str "Female"), some (.num 85), some (.num 175), some (.num 72), some (.num 45)⟩))
        (some (fun v => if v = [1, 85, 175, 72, 45] then Except.ok 30 else Except.error "wrong vector"))
        none =
      ⟨.ok (postprocess 30) (get_interpretation (postprocess 30)), 0, 1⟩ ∧
    handlePredict
        (some (.obj ⟨some (.str "male"), some (.num 85), some (.num 175), some (.num 72), some (.num 45)⟩))
        (some (fun v => if v = [0, 85, 175, 72, 45] then Except.ok 30 else Except.error "wrong vector"))
        none =
      ⟨.ok (postprocess 30) (get_interpretation (postprocess 30)), 0, 1⟩ := by
  constructor
  · exact C6_gender_feature_vector.1 85 175 72 45 30 _ none
      (by norm_num) (by norm_num) (by norm_num) (by norm_num)
      (by norm_num) (by norm_num) (by norm_num) (by norm_num) (by norm_num)
  · exact C6_gender_feature_vector.2.2.2 30 _ none (by norm_num)

/-- C4: when the first predictor call of a validated request throws, the
handler reloads the model exactly once and retries predict exactly once
(`loaderCalls = 1`, `predictCalls ≤ 2` — never a second reload or retry);
if the reloaded predictor is absent the response is HTTP 500
("模型修复失败"), and if the single retry also throws the response is
HTTP 500 via the catch-all. -/
theorem C4_single_reload_retry :
    ∀ (gs : String) (w h wt a : ℚ) (e : String) (p : Predictor) (l : Option Predictor),
      50 ≤ w → w ≤ 200 → 100 ≤ h → h ≤ 250 → 30 ≤ wt → wt ≤ 200 → 18 ≤ a → a ≤ 100 →
      p [if pyLower gs = "female" then 1 else 0, w, h, wt, a] = Except.error e →
      (handlePredict
          (some (.obj ⟨some (.str gs), some (.num w), some (.num h), some (.num wt), some (.num a)⟩))
          (some p) l).loaderCalls = 1 ∧
      (handlePredict
          (some (.obj ⟨some (.str gs), some (.num w), some (.num h), some (.num wt), some (.num a)⟩))
          (some p) l).predictCalls ≤ 2 ∧
      (l = none →
        handlePredict
            (some (.obj ⟨some (.str gs), some (.num w), some (.num h), some (.num wt), some (.num a)⟩))
            (some p) l =
          ⟨.err "模型修复失败" 500, 1, 1⟩) ∧
      (∀ (p2 : Predictor) (e2 : String), l = some p2 →
        p2 [if pyLower gs = "female" then 1 else 0, w, h, wt, a] = Except.error e2 →
        handlePredict
            (some (.obj ⟨some (.str gs), some (.num w), some (.num h), some (.num wt), some (.num a)⟩))
            (some p) l =
          ⟨.err ("预测失败: " ++ e2) 500, 1, 2⟩) := by
  intro gs w h wt a e p l h1 h2 h3 h4 h5 h6 h7 h8 hp
  have key : ∀ l' : Option Predictor,
      handlePredict
          (some (.obj ⟨some (.str gs), some (.num w), some (.num h), some (.num wt), some (.num a)⟩))
          (some p) l' =
        (match l' with
          | none => ⟨.err "模型修复失败" 500, 1, 1⟩
          | some p2 =>
            match p2 [if pyLower gs = "female" then 1 else 0, w, h, wt, a] with
            | .ok prediction =>
              ⟨.ok (postprocess prediction) (get_interpretation (postprocess prediction)), 1, 2⟩
            | .error e2 => ⟨.err ("预测失败: " ++ e2) 500, 1, 2⟩) := by
    intro l'
    simp [handlePredict, conv4, pyFloat, h1, h2, h3, h4, h5, h6, h7, h8, hp]
  refine ⟨?_, ?_, ?_, ?_⟩
  · rw [key]
    match l with
    | none => rfl
    | some p2 =>
      rcases hq : p2 [if pyLower gs = "female" then 1 else 0, w, h, wt, a] with x | e2 <;>
        simp [hq]
  · rw [key]
    match l with
    | none => simp
    | some p2 =>
      rcases hq : p2 [if pyLower gs = "female" then 1 else 0, w, h, wt, a] with x | e2 <;>
        simp [hq]
  · intro hl; subst hl; exact key none
  · intro p2 e2 hl hp2; subst hl; rw [key]; simp [hp2]

/-- Witness for C4: a broken predictor with no reloadable model gives
HTTP 500 "模型修复失败" after exactly one reload attempt and one predict
call; with a reloaded predictor that also throws, HTTP 500 via the
catch-all after exactly one reload and two predict calls. -/
theorem C4_witness :
    handlePredict
        (some (.obj ⟨some (.str "male"), some (.num 85), some (.num 175), some (.num 72), some (.num 45)⟩))
        (some (fun _ => Except.error "boom")) none =
      ⟨.err "模型修复失败" 500, 1, 1⟩ ∧
    handlePredict
        (some (.obj ⟨some (.str "male"), some (.num 85), some (.num 175), some (.num 72), some (.num 45)⟩))
        (some (fun _ => Except.error "boom")) (some (fun _ => Except.error "boom2")) =
      ⟨.err ("预测失败: " ++ "boom2") 500, 1, 2⟩ := by
  constructor
  · exact (C4_single_reload_retry "male" 85 175 72 45 "boom" _ none
      (by norm_num) (by norm_num) (by norm_num) (by norm_num)
      (by norm_num) (by norm_num) (by norm_num) (by norm_num) rfl).2.2.1 rfl
  · exact (C4_single_reload_retry "male" 85 175 72 45 "boom" _ _
      (by norm_num) (by norm_num) (by norm_num) (by norm_num)
      (by norm_num) (by norm_num) (by norm_num) (by norm_num) rfl).2.2.2 _ "boom2" rfl rfl

/-- C9 counterexample: an empty JSON array body is not a JSON object, yet
the handler returns HTTP 400 "缺少必要字段: gender", not HTTP 500 — the
membership test `'gender' in []` evaluates to `False` without raising, so
the presence loop at `app.py` line 179 answers first. -/
theorem C9_counterexample :
    handlePredict (some (.arr [])) none none = ⟨.err "缺少必要字段: gender" 400, 0, 0⟩ ∧
    handlePredict (some (.strBody "x")) none none =
      ⟨.err "缺少必要字段: gender" 400, 0, 0⟩ := by
  constructor <;> rfl

/-- C9 amended: only `ValueError` from the numeric conversions is treated
as a validation failure among the conversion errors, and a body on which
`in` raises `TypeError` (JSON `null`/number/boolean, or no parsed body), a
`null` numeric field, or a non-string gender give HTTP 500 via the
catch-all; but a JSON array or string body does not raise in the
membership test: the first required field name that is not a member gives
HTTP 400 naming that field, and only when all five names are members does
the subscript access raise `TypeError` for HTTP 500. -/
theorem C9_error_taxonomy :
    (∀ m l : Option Predictor,
      handlePredict (some .othr) m l = ⟨.err "预测失败: TypeError" 500, 0, 0⟩) ∧
    (∀ m l : Option Predictor,
      handlePredict none m l = ⟨.err "预测失败: BadRequest" 500, 0, 0⟩) ∧
    (∀ (es : List JVal) (f : String) (m l : Option Predictor),
      required_fields.find? (fun f' => !es.contains (.str f')) = some f →
      handlePredict (some (.arr es)) m l = ⟨.err ("缺少必要字段: " ++ f) 400, 0, 0⟩) ∧
    (∀ (es : List JVal) (m l : Option Predictor),
      required_fields.find? (fun f' => !es.contains (.str f')) = none →
      handlePredict (some (.arr es)) m l = ⟨.err "预测失败: TypeError" 500, 0, 0⟩) ∧
    (∀ (s f : String) (m l : Option Predictor),
      required_fields.find? (fun f' => !strMem f'.data s.data) = some f →
      handlePredict (some (.strBody s)) m l = ⟨.err ("缺少必要字段: " ++ f) 400, 0, 0⟩) ∧
    (∀ (s : String) (m l : Option Predictor),
      required_fields.find? (fun f' => !strMem f'.data s.data) = none →
      handlePredict (some (.strBody s)) m l = ⟨.err "预测失败: TypeError" 500, 0, 0⟩) ∧
    (∀ m l : Option Predictor,
      handlePredict
          (some (.obj ⟨some (.str "male"), some .null, some (.num 175), some (.num 72), some (.num 45)⟩))
          m l =
        ⟨.err "预测失败: TypeError" 500, 0, 0⟩) ∧
    (∀ m l : Option Predictor,
      handlePredict
          (some (.obj ⟨some (.num 1), some (.num 85), some (.num 175), some (.num 72), some (.num 45)⟩))
          m l =
        ⟨.err "预测失败: AttributeError" 500, 0, 0⟩) ∧
    (∀ m l : Option Predictor,
      handlePredict
          (some (.obj ⟨some (.str "male"), some (.str "abc"), some (.num 175), some (.num 72), some (.num 45)⟩))
          m l =
        ⟨.err "请输入有效的数值" 400, 0, 0⟩) := by
  refine ⟨fun m l => rfl, fun m l => rfl, ?_, ?_, ?_, ?_, fun m l => rfl, ?_, fun m l => rfl⟩
  · intro es f m l hf
    simp only [handlePredict]
    rw [hf]
  · intro es m l hf
    simp only [handlePredict]
    rw [hf]
  · intro s f m l hf
    simp only [handlePredict]
    rw [hf]
  · intro s m l hf
    simp only [handlePredict]
    rw [hf]
  · intro m l
    norm_num [handlePredict, conv4, pyFloat]

/-- Witness for C9 amended: the empty-array and short-string bodies miss
the gender field (HTTP 400), and an array body listing all five field
names passes the presence loop but fails at the subscript (HTTP 500). -/
theorem C9_witness :
    handlePredict (some (.arr [])) none none =
      ⟨.err ("缺少必要字段: " ++ "gender") 400, 0, 0⟩ ∧
    handlePredict (some (.strBody "x")) none none =
      ⟨.err ("缺少必要字段: " ++ "gender") 400, 0, 0⟩ ∧
    handlePredict
        (some (.arr [.str "gender", .str "waist", .str "height", .str "weight", .str "age"]))
        none none =
      ⟨.err "预测失败: TypeError" 500, 0, 0⟩ :=
  ⟨C9_error_taxonomy.2.2.1 [] "gender" none none rfl,
   C9_error_taxonomy.2.2.2.2.1 "x" "gender" none none rfl,
   C9_error_taxonomy.2.2.2.1 [.str "gender", .str "waist", .str "height", .str "weight", .str "age"]
     none none rfl⟩

/-- C3: validation runs in the fixed order presence (gender, waist, height,
weight, age) → numeric parse → range checks (waist, height, weight, age),
the first failing check determining the 400 response; bounds are closed, so
waist 200 and waist 50 are accepted while waist 201 is rejected with the
waist-range message. -/
theorem C3_validation_order :
    (∀ (wv hv wtv av : Option JVal) (m l : Option Predictor),
      handlePredict (some (.obj ⟨none, wv, hv, wtv, av⟩)) m l = ⟨.err "缺少必要字段: gender" 400, 0, 0⟩) ∧
    (∀ (g : JVal) (hv wtv av : Option JVal) (m l : Option Predictor),
      handlePredict (some (.obj ⟨some g, none, hv, wtv, av⟩)) m l =
        ⟨.err "缺少必要字段: waist" 400, 0, 0⟩) ∧
    (∀ (g wv : JVal) (wtv av : Option JVal) (m l : Option Predictor),
      handlePredict (some (.obj ⟨some g, some wv, none, wtv, av⟩)) m l =
        ⟨.err "缺少必要字段: height" 400, 0, 0⟩) ∧
    (∀ (g wv hv : JVal) (av : Option JVal) (m l : Option Predictor),
      handlePredict (some (.obj ⟨some g, some wv, some hv, none, av⟩)) m l =
        ⟨.err "缺少必要字段: weight" 400, 0, 0⟩) ∧
    (∀ (g wv hv wtv : JVal) (m l : Option Predictor),
      handlePredict (some (.obj ⟨some g, some wv, some hv, some wtv, none⟩)) m l =
        ⟨.err "缺少必要字段: age" 400, 0, 0⟩) ∧
    (∀ (wtv av : JVal) (m l : Option Predictor),
      handlePredict
          (some (.obj ⟨some (.str "male"), some (.num 300), some (.str "abc"), some wtv, some av⟩)) m l =
        ⟨.err "请输入有效的数值" 400, 0, 0⟩) ∧
    (∀ (g : JVal) (w h wt a : ℚ) (m l : Option Predictor),
      (¬(50 ≤ w ∧ w ≤ 200) →
        handlePredict
            (some (.obj ⟨some g, some (.num w), some (.num h), some (.num wt), some (.num a)⟩)) m l =
          ⟨.err "腰围应在50-200cm之间" 400, 0, 0⟩) ∧
      (50 ≤ w → w ≤ 200 → ¬(100 ≤ h ∧ h ≤ 250) →
        handlePredict
            (some (.obj ⟨some g, some (.num w), some (.num h), some (.num wt), some (.num a)⟩)) m l =
          ⟨.err "身高应在100-250cm之间" 400, 0, 0⟩) ∧
      (50 ≤ w → w ≤ 200 → 100 ≤ h → h ≤ 250 → ¬(30 ≤ wt ∧ wt ≤ 200) →
        handlePredict
            (some (.obj ⟨some g, some (.num w), some (.num h), some (.num wt), some (.num a)⟩)) m l =
          ⟨.err "体重应在30-200kg之间" 400, 0, 0⟩) ∧
      (50 ≤ w → w ≤ 200 → 100 ≤ h → h ≤ 250 → 30 ≤ wt → wt ≤ 200 → ¬(18 ≤ a ∧ a ≤ 100) →
        handlePredict
            (some (.obj ⟨some g, some (.num w), some (.num h), some (.num wt), some (.num a)⟩)) m l =
          ⟨.err "年龄应在18-100岁之间" 400, 0, 0⟩)) ∧
    (∀ m l : Option Predictor,
      handlePredict
          (some (.obj ⟨some (.str "male"), some (.num 201), some (.num 175), some (.num 72), some (.num 45)⟩))
          m l =
        ⟨.err "腰围应在50-200cm之间" 400, 0, 0⟩) ∧
    (∀ l : Option Predictor,
      handlePredict
          (some (.obj ⟨some (.str "male"), some (.num 200), some (.num 175), some (.num 72), some (.num 45)⟩))
          (some (fun _ => Except.ok 30)) l =
        ⟨.ok (postprocess 30) (get_interpretation (postprocess 30)), 0, 1⟩) ∧
    (∀ l : Option Predictor,
      handlePredict
          (some (.obj ⟨some (.str "male"), some (.num 50), some (.num 175), some (.num 72), some (.num 45)⟩))
          (some (fun _ => Except.ok 30)) l =
        ⟨.ok (postprocess 30) (get_interpretation (postprocess 30)), 0, 1⟩) := by
  have hm : pyLower "male" ≠ "female" := by decide
  refine ⟨fun _ _ _ _ _ _ => rfl, fun _ _ _ _ _ _ => rfl, fun _ _ _ _ _ _ => rfl,
    fun _ _ _ _ _ _ => rfl, fun _ _ _ _ _ _ => rfl, fun _ _ _ _ => rfl, ?_, ?_, ?_, ?_⟩
  · intro g w h wt a m l
    refine ⟨?_, ?_, ?_, ?_⟩
    · intro hw
      simp [handlePredict, conv4, pyFloat, hw]
    · intro h1 h2 hh
      simp [handlePredict, conv4, pyFloat, h1, h2, hh]
    · intro h1 h2 h3 h4 hwt
      simp [handlePredict, conv4, pyFloat, h1, h2, h3, h4, hwt]
    · intro h1 h2 h3 h4 h5 h6 ha
      simp [handlePredict, conv4, pyFloat, h1, h2, h3, h4, h5, h6, ha]
  · intro m l
    norm_num [handlePredict, conv4, pyFloat]
  · intro l
    norm_num [handlePredict, conv4, pyFloat, hm]
  · intro l
    norm_num [handlePredict, conv4, pyFloat, hm]

/-- Witness for C3: the waist-range branch fired at waist 300 through the
general range clause. -/
theorem C3_witness :
    handlePredict
        (some (.obj ⟨some (.str "male"), some (.num 300), some (.num 175), some (.num 72), some (.num 45)⟩))
        none none =
      ⟨.err "腰围应在50-200cm之间" 400, 0, 0⟩ :=
  (C3_validation_order.2.2.2.2.2.2.1 (.str "male") 300 175 72 45 none none).1 (by norm_num)

/-- C8 counterexample: a numeric parse failure on the waist field and one
on the height field return the identical fixed message "请输入有效的数值",
which therefore cannot identify the specific failing field. -/
theorem C8_counterexample :
    (handlePredict
        (some (.obj ⟨some (.str "male"), some (.str "abc"), some (.num 175), some (.num 72), some (.num 45)⟩))
        none none).resp =
      .err "请输入有效的数值" 400 ∧
    (handlePredict
        (some (.obj ⟨some (.str "male"), some (.num 85), some (.str "abc"), some (.num 72), some (.num 45)⟩))
        none none).resp =
      .err "请输入有效的数值" 400 := by
  constructor <;> rfl

/-- C8 amended: missing-field 400 messages name the missing field and
range-violation 400 messages are four distinct field-specific strings, but
a numeric parse failure yields one fixed generic 400 message that is the
same whichever of the four numeric fields failed to parse. -/
theorem C8_field_specific_messages :
    (∀ (wv hv wtv av : Option JVal) (m l : Option Predictor),
      handlePredict (some (.obj ⟨none, wv, hv, wtv, av⟩)) m l =
        ⟨.err ("缺少必要字段: " ++ "gender") 400, 0, 0⟩) ∧
    (∀ (g : JVal) (hv wtv av : Option JVal) (m l : Option Predictor),
      handlePredict (some (.obj ⟨some g, none, hv, wtv, av⟩)) m l =
        ⟨.err ("缺少必要字段: " ++ "waist") 400, 0, 0⟩) ∧
    (∀ (g wv : JVal) (wtv av : Option JVal) (m l : Option Predictor),
      handlePredict (some (.obj ⟨some g, some wv, none, wtv, av⟩)) m l =
        ⟨.err ("缺少必要字段: " ++ "height") 400, 0, 0⟩) ∧
    (∀ (g wv hv : JVal) (av : Option JVal) (m l : Option Predictor),
      handlePredict (some (.obj ⟨some g, some wv, some hv, none, av⟩)) m l =
        ⟨.err ("缺少必要字段: " ++ "weight") 400, 0, 0⟩) ∧
    (∀ (g wv hv wtv : JVal) (m l : Option Predictor),
      handlePredict (some (.obj ⟨some g, some wv, some hv, some wtv, none⟩)) m l =
        ⟨.err ("缺少必要字段: " ++ "age") 400, 0, 0⟩) ∧
    ("腰围应在50-200cm之间" ≠ "身高应在100-250cm之间" ∧
      "腰围应在50-200cm之间" ≠ "体重应在30-200kg之间" ∧
      "腰围应在50-200cm之间" ≠ "年龄应在18-100岁之间" ∧
      "身高应在100-250cm之间" ≠ "体重应在30-200kg之间" ∧
      "身高应在100-250cm之间" ≠ "年龄应在18-100岁之间" ∧
      "体重应在30-200kg之间" ≠ "年龄应在18-100岁之间") ∧
    (∀ (s : String) (hv wtv av : JVal) (m l : Option Predictor),
      parseDecimal s = none →
      handlePredict
          (some (.obj ⟨some (.str "male"), some (.str s), some hv, some wtv, some av⟩)) m l =
        ⟨.err "请输入有效的数值" 400, 0, 0⟩) ∧
    (∀ (s : String) (w : ℚ) (wtv av : JVal) (m l : Option Predictor),
      parseDecimal s = none →
      handlePredict
          (some (.obj ⟨some (.str "male"), some (.num w), some (.str s), some wtv, some av⟩)) m l =
        ⟨.err "请输入有效的数值" 400, 0, 0⟩) := by
  refine ⟨fun _ _ _ _ _ _ => rfl, fun _ _ _ _ _ _ => rfl, fun _ _ _ _ _ _ => rfl,
    fun _ _ _ _ _ _ => rfl, fun _ _ _ _ _ _ => rfl,
    by refine ⟨?_, ?_, ?_, ?_, ?_, ?_⟩ <;> decide, ?_, ?_⟩
  · intro s hv wtv av m l hs
    simp [handlePredict, conv4, pyFloat, hs]
  · intro s w wtv av m l hs
    simp [handlePredict, conv4, pyFloat, hs]

/-- Witness for C8 amended: the parse-failure clauses applied to "abc" on
the waist and on the height field. -/
theorem C8_witness :
    handlePredict
        (some (.obj ⟨some (.str "male"), some (.str "abc"), some (.num 175), some (.num 72), some (.num 45)⟩))
        none none =
      ⟨.err "请输入有效的数值" 400, 0, 0⟩ ∧
    handlePredict
        (some (.obj ⟨some (.str "male"), some (.num 85), some (.str "abc"), some (.num 72), some (.num 45)⟩))
        none none =
      ⟨.err "请输入有效的数值" 400, 0, 0⟩ :=
  ⟨C8_field_specific_messages.2.2.2.2.2.2.1 "abc" (.num 175) (.num 72) (.num 45) none none rfl,
   C8_field_specific_messages.2.2.2.2.2.2.2 "abc" 85 (.num 72) (.num 45) none none rfl⟩

end TrunkFatApp
